import Mathlib

/-!
# GreenFin dashboard: portfolio divestment engine, shallowly embedded

This file embeds the state model and the two pieces of logic of
`src/reports/GreenFinDashboard.jsx`:

* `handleSimulateDivestment` (lines 77–150): validation of a proposed
  divestment amount against the current Tier-D exposure, the bucket update,
  and the percentage recomputation, modelled as the pure core
  `simulateDivestment` (the `setDoc` persistence call is the caller's I/O;
  the engine's output is the document that would be written, and an error
  result means no write is attempted);
* `calculatedMetrics` (lines 303–329): the pure derived-metrics projection.

JavaScript numbers are modelled by `JNum`: NaN, the two infinities, and
finite values as exact rationals (`ℚ`), with JS comparison semantics
(`NaN` compares false).  Exposures, percentages and counts inside a
snapshot are finite, matching the data model.
-/

namespace GreenFin

/-- A JavaScript number as produced by `parseFloat`: NaN, ±Infinity, or a
finite value (modelled exactly as a rational). -/
inductive JNum where
  | nan
  | posInf
  | negInf
  | val (q : ℚ)
deriving DecidableEq, Repr

/-- JS `isNaN(x)`. -/
def JNum.isNaN : JNum → Bool
  | .nan => true
  | _ => false

/-- JS `a <= b`: any comparison with NaN is false. -/
def JNum.jle : JNum → JNum → Bool
  | .nan, _ => false
  | _, .nan => false
  | .negInf, _ => true
  | _, .negInf => false
  | _, .posInf => true
  | .posInf, _ => false
  | .val a, .val b => decide (a ≤ b)

/-- JS `a > b`: any comparison with NaN is false. -/
def JNum.jgt : JNum → JNum → Bool
  | .nan, _ => false
  | _, .nan => false
  | .posInf, .posInf => false
  | .posInf, _ => true
  | _, .posInf => false
  | .negInf, _ => false
  | _, .negInf => true
  | .val a, .val b => decide (b < a)

/-- The finite value of a `JNum`; only used on code paths where the number
has already been checked to be finite. -/
def JNum.toRat : JNum → ℚ
  | .val q => q
  | _ => 0

/-- JS `s.startsWith(p)` (String.prototype.startsWith). -/
def jsStartsWith (s p : String) : Bool :=
  p.data.isPrefixOf s.data

/-- One row of `riskData`: field-for-field the objects of `MOCK_DATA`
(tier label, exposure in Mn USD, percentage of total, chart color,
loan count). -/
structure RiskBucket where
  tier : String
  exposure : ℚ
  percentage : ℚ
  color : String
  count : ℕ
deriving DecidableEq, Repr

/-- The `lastAction` object written by `handleSimulateDivestment`. -/
structure DivestmentRecord where
  type : String
  amount : ℚ
  timestamp : String
  user : String
deriving DecidableEq, Repr

/-- The `portfolio_summary` document: the single unit of truth. -/
structure PortfolioSnapshot where
  totalExposure : ℚ
  initialTierDTarget : ℚ
  lastUpdated : String
  riskData : List RiskBucket
  lastAction : Option DivestmentRecord
deriving DecidableEq, Repr

/-- The error taxonomy of §7 of the spec.  In the source the first two are
the early-return branches of `handleSimulateDivestment` (lines 81–92);
`AmountExceedsExposure` carries the current Tier-D exposure (the ceiling
interpolated into the error message).  `PersistenceFailure` is the
`catch` branch around the store write. -/
inductive DivestError where
  | InvalidAmount
  | AmountExceedsExposure (ceiling : ℚ)
  | PersistenceFailure
deriving DecidableEq, Repr

/-- `TOTAL_EXPOSURE` module constant (line 20). -/
def TOTAL_EXPOSURE : ℚ := 278157.81

/-- `TIER_D_TARGET_EXPOSURE` module constant (line 21). -/
def TIER_D_TARGET_EXPOSURE : ℚ := 52052.43

/-- Lines 86–87: `riskData.find(d => d.tier.startsWith('D'))`, defaulting
the exposure to `0` when no Tier-D bucket exists.  The same expression is
evaluated again at lines 306–307 inside `calculatedMetrics`. -/
def currentTierDExposure (dbData : PortfolioSnapshot) : ℚ :=
  ((dbData.riskData.find? fun d => jsStartsWith d.tier "D").map RiskBucket.exposure).getD 0

/-- The per-bucket function of the `riskData.map` at lines 103–119: the
Tier-D bucket gets the new exposure and a percentage computed against the
module constant `TOTAL_EXPOSURE`; the Tier-C branch (taken only when the
new Tier-D exposure is `≤ 0`) spreads the bucket into a new object with
every field unchanged; all other buckets are returned as-is. -/
def updateBucket (newTierDExposure newTierDPercentage : ℚ) (d : RiskBucket) : RiskBucket :=
  if jsStartsWith d.tier "D" then
    { d with exposure := newTierDExposure, percentage := newTierDPercentage }
  else if jsStartsWith d.tier "C" && decide (newTierDExposure ≤ 0) then
    { tier := d.tier, exposure := d.exposure, percentage := d.percentage,
      color := d.color, count := d.count }
  else d

/-- `handleSimulateDivestment` (lines 77–150) as a pure function.
`amount` is the result of `parseFloat(divestmentAmount)`; `now` is the
injected clock value used for both `lastUpdated` and the
`lastAction.timestamp` (`new Date().toISOString()`).  An `Except.error`
result is an early return: no document write is attempted. -/
def simulateDivestment (dbData : PortfolioSnapshot) (amount : JNum)
    (userId : String) (now : String) : Except DivestError PortfolioSnapshot :=
  if amount.isNaN || amount.jle (JNum.val 0) then
    Except.error DivestError.InvalidAmount
  else if amount.jgt (JNum.val (currentTierDExposure dbData)) then
    Except.error (DivestError.AmountExceedsExposure (currentTierDExposure dbData))
  else
    let amt := amount.toRat
    let newTierDExposure := currentTierDExposure dbData - amt
    let newTierDPercentage := newTierDExposure / TOTAL_EXPOSURE * 100
    let updatedRiskData := dbData.riskData.map (updateBucket newTierDExposure newTierDPercentage)
    let recalculateTotal := updatedRiskData.foldl (fun sum d => sum + d.exposure) 0
    let finalRiskData := updatedRiskData.map fun d =>
      { d with percentage := d.exposure / recalculateTotal * 100 }
    Except.ok { dbData with
      riskData := finalRiskData,
      lastUpdated := now,
      lastAction := some { type := "Divestment", amount := amt, timestamp := now, user := userId } }

/-- The record returned by the `calculatedMetrics` memo (lines 321–327). -/
structure CalculatedMetrics where
  currentTierDExposure : ℚ
  progressMade : ℚ
  progressPercentage : ℚ
  highRiskExposure : ℚ
  totalLoanCount : ℕ
deriving DecidableEq, Repr

/-- The derived-metrics projection (lines 303–329). -/
def calculatedMetrics (dbData : PortfolioSnapshot) : CalculatedMetrics :=
  let tierD := currentTierDExposure dbData
  let totalTarget := dbData.initialTierDTarget
  let progressMade := max 0 (totalTarget - tierD)
  let progressPercentage := if totalTarget > 0 then progressMade / totalTarget * 100 else 0
  let tierC := dbData.riskData.find? fun d => jsStartsWith d.tier "C"
  let highRiskExposure := tierD + ((tierC.map RiskBucket.exposure).getD 0)
  let totalLoanCount := dbData.riskData.foldl (fun a b => a + b.count) 0
  { currentTierDExposure := tierD,
    progressMade := progressMade,
    progressPercentage := min 100 progressPercentage,
    highRiskExposure := highRiskExposure,
    totalLoanCount := totalLoanCount }

/-! ## The documented starting snapshot (`MOCK_DATA`, lines 14–21) -/

/-- Tier A row of `MOCK_DATA`. -/
def mockTierA : RiskBucket :=
  { tier := "A: Leader (Low Risk)", exposure := 9933.22, percentage := 3.57,
    color := "#10B981", count := 34 }

/-- Tier B row of `MOCK_DATA`. -/
def mockTierB : RiskBucket :=
  { tier := "B: Aligned (Moderate Risk)", exposure := 86354.51, percentage := 31.05,
    color := "#3B82F6", count := 313 }

/-- Tier C row of `MOCK_DATA`. -/
def mockTierC : RiskBucket :=
  { tier := "C: Watchlist (High Risk)", exposure := 129817.65, percentage := 46.67,
    color := "#F59E0B", count := 459 }

/-- Tier D row of `MOCK_DATA`. -/
def mockTierD : RiskBucket :=
  { tier := "D: Divestment (Very High Risk)", exposure := 52052.43, percentage := 18.71,
    color := "#EF4444", count := 194 }

/-- The initial document written by `initializeData` (lines 261–281),
seeded from `MOCK_DATA`. -/
def initialSnapshot : PortfolioSnapshot :=
  { totalExposure := TOTAL_EXPOSURE,
    initialTierDTarget := TIER_D_TARGET_EXPOSURE,
    lastUpdated := "2024-01-01T00:00:00.000Z",
    riskData := [mockTierA, mockTierB, mockTierC, mockTierD],
    lastAction := none }

/-! ## Well-formedness of a snapshot's `riskData`

The data model (§3 of the spec) fixes `riskData` as an ordered sequence of
four buckets, one per tier, in the order A, B, C, D.  The computations
only inspect the tier labels through `startsWith('C')` / `startsWith('D')`,
so the well-formedness facts they need are exactly the following Boolean
facts about the four labels. -/

/-- The tier-label layout of a well-formed `riskData` row `[a, b, c, d]`:
the first two buckets are neither Tier C nor Tier D, the third is Tier C
(and not Tier D), the fourth is Tier D. -/
structure BucketTiers (a b c d : RiskBucket) : Prop where
  aD : jsStartsWith a.tier "D" = false
  aC : jsStartsWith a.tier "C" = false
  bD : jsStartsWith b.tier "D" = false
  bC : jsStartsWith b.tier "C" = false
  cD : jsStartsWith c.tier "D" = false
  cC : jsStartsWith c.tier "C" = true
  dD : jsStartsWith d.tier "D" = true

/-! ## Helper lemmas -/

lemma currentTierDExposure_of_wf (s : PortfolioSnapshot) (a b c d : RiskBucket)
    (hs : s.riskData = [a, b, c, d]) (ht : BucketTiers a b c d) :
    currentTierDExposure s = d.exposure := by
  simp [currentTierDExposure, hs, List.find?, ht.aD, ht.bD, ht.cD, ht.dD]

lemma updateBucket_of_D (e p : ℚ) (b : RiskBucket) (h : jsStartsWith b.tier "D" = true) :
    updateBucket e p b = { b with exposure := e, percentage := p } := by
  simp [updateBucket, h]

lemma updateBucket_of_not_D (e p : ℚ) (b : RiskBucket) (h : jsStartsWith b.tier "D" = false) :
    updateBucket e p b = b := by
  unfold updateBucket
  rw [h]
  simp only [Bool.false_eq_true, if_false]
  split <;> rfl

/-- The total exposure recomputed after a divestment of `q` from a
well-formed row `[a, b, c, d]` (the `recalculateTotal` reduce at line
122 of the source). -/
def divTotal (a b c d : RiskBucket) (q : ℚ) : ℚ :=
  a.exposure + b.exposure + c.exposure + (d.exposure - q)

/-- The full output of the success path of `simulateDivestment` on a
well-formed snapshot: Tier D's exposure drops by `q`, every percentage is
recomputed against the new total, all other fields of the non-D buckets
are untouched, `totalExposure` and `initialTierDTarget` are carried over
from the input document, and the metadata fields are set from the clock
and the actor. -/
lemma simulateDivestment_ok (s : PortfolioSnapshot) (a b c d : RiskBucket) (q : ℚ)
    (u t : String) (hs : s.riskData = [a, b, c, d]) (ht : BucketTiers a b c d)
    (h0 : 0 < q) (hle : q ≤ d.exposure) :
    simulateDivestment s (JNum.val q) u t = Except.ok
      { s with
        riskData :=
          [{ a with percentage := a.exposure / divTotal a b c d q * 100 },
           { b with percentage := b.exposure / divTotal a b c d q * 100 },
           { c with percentage := c.exposure / divTotal a b c d q * 100 },
           { d with exposure := d.exposure - q,
                    percentage := (d.exposure - q) / divTotal a b c d q * 100 }],
        lastUpdated := t,
        lastAction := some { type := "Divestment", amount := q, timestamp := t, user := u } } := by
  have hD : currentTierDExposure s = d.exposure := currentTierDExposure_of_wf s a b c d hs ht
  have h1 : ((JNum.val q).isNaN || (JNum.val q).jle (JNum.val 0)) = false := by
    simp [JNum.isNaN, JNum.jle, not_le, h0]
  have h2 : (JNum.val q).jgt (JNum.val d.exposure) = false := by
    simp [JNum.jgt, not_lt, hle]
  unfold simulateDivestment
  rw [h1, hD, h2]
  simp only [Bool.false_eq_true, if_false, JNum.toRat, hs, List.map, List.foldl,
    updateBucket_of_D _ _ d ht.dD, updateBucket_of_not_D _ _ a ht.aD,
    updateBucket_of_not_D _ _ b ht.bD, updateBucket_of_not_D _ _ c ht.cD]
  simp only [divTotal]
  ring_nf

/-- The mock row satisfies the tier-label layout. -/
lemma mockTiers : BucketTiers mockTierA mockTierB mockTierC mockTierD :=
  ⟨by decide, by decide, by decide, by decide, by decide, by decide, by decide⟩

/-- On the documented starting snapshot the current Tier-D exposure is the
mock Tier-D figure. -/
lemma currentTierD_initial : currentTierDExposure initialSnapshot = 52052.43 :=
  currentTierDExposure_of_wf initialSnapshot mockTierA mockTierB mockTierC mockTierD rfl mockTiers

/-! ## Claims -/

/-- C1: for every well-formed snapshot and every amount with
`0 < amount ≤` the current Tier-D exposure, the divestment succeeds and
the output's exposures are exactly the input's with the Tier-D exposure
reduced by the amount — no other bucket's exposure changes. -/
theorem divestment_subtracts_from_tierD_only (s : PortfolioSnapshot) (a b c d : RiskBucket)
    (q : ℚ) (u t : String) (hs : s.riskData = [a, b, c, d]) (ht : BucketTiers a b c d)
    (h0 : 0 < q) (hle : q ≤ d.exposure) :
    ∃ s₂, simulateDivestment s (JNum.val q) u t = Except.ok s₂ ∧
      s₂.riskData.map RiskBucket.exposure =
        [a.exposure, b.exposure, c.exposure, d.exposure - q] :=
  ⟨_, simulateDivestment_ok s a b c d q u t hs ht h0 hle, by simp⟩

/-- C1 witness: divesting 20000 from the documented starting snapshot. -/
theorem divestment_subtracts_from_tierD_only_witness :
    (0 : ℚ) < 20000 ∧ (20000 : ℚ) ≤ mockTierD.exposure ∧
    ∃ s₂, simulateDivestment initialSnapshot (JNum.val 20000) "analyst" "t0" = Except.ok s₂ ∧
      s₂.riskData.map RiskBucket.exposure =
        [mockTierA.exposure, mockTierB.exposure, mockTierC.exposure, mockTierD.exposure - 20000] :=
  ⟨by norm_num, by norm_num [mockTierD],
    divestment_subtracts_from_tierD_only initialSnapshot mockTierA mockTierB mockTierC mockTierD
      20000 "analyst" "t0" rfl mockTiers (by norm_num) (by norm_num [mockTierD])⟩

/-- C2: an amount strictly above the current Tier-D exposure (including
`+∞`, which also compares above any finite exposure) makes the operation
fail with `AmountExceedsExposure` carrying the current Tier-D exposure as
the ceiling; the error is an early return, so no document write is
attempted. -/
theorem exceeding_amount_fails (s : PortfolioSnapshot) (amount : JNum) (u t : String)
    (hexp : 0 ≤ currentTierDExposure s)
    (hgt : amount = JNum.posInf ∨ ∃ q, amount = JNum.val q ∧ currentTierDExposure s < q) :
    simulateDivestment s amount u t =
      Except.error (DivestError.AmountExceedsExposure (currentTierDExposure s)) := by
  unfold simulateDivestment
  rcases hgt with rfl | ⟨q, rfl, hq⟩
  · simp [JNum.isNaN, JNum.jle, JNum.jgt]
  · have h0 : 0 < q := lt_of_le_of_lt hexp hq
    simp [JNum.isNaN, JNum.jle, JNum.jgt, not_le.mpr h0, hq]

/-- C2 witness: divesting 52052.44 from the documented starting snapshot
fails citing the ceiling 52052.43. -/
theorem exceeding_amount_fails_witness :
    (0 : ℚ) ≤ currentTierDExposure initialSnapshot ∧
    (JNum.val 52052.44 = JNum.posInf ∨ ∃ q, JNum.val (52052.44 : ℚ) = JNum.val q ∧
      currentTierDExposure initialSnapshot < q) ∧
    simulateDivestment initialSnapshot (JNum.val 52052.44) "analyst" "t0" =
      Except.error (DivestError.AmountExceedsExposure (currentTierDExposure initialSnapshot)) :=
  ⟨by rw [currentTierD_initial]; norm_num,
   Or.inr ⟨52052.44, rfl, by rw [currentTierD_initial]; norm_num⟩,
   exceeding_amount_fails initialSnapshot (JNum.val 52052.44) "analyst" "t0"
     (by rw [currentTierD_initial]; norm_num)
     (Or.inr ⟨52052.44, rfl, by rw [currentTierD_initial]; norm_num⟩)⟩

/-- C3 (amended): an amount that is NaN, negative infinity, or a
non-positive finite number fails with `InvalidAmount`, and this happens
regardless of the snapshot, i.e. before the exceeds-exposure check.  The
original claim also routed non-finite positive input (`+∞`) to
`InvalidAmount`; the code sends it to the exceeds-exposure check instead
(see the counterexample). -/
theorem invalid_amount_fails_first (s : PortfolioSnapshot) (amount : JNum) (u t : String)
    (h : amount = JNum.nan ∨ amount = JNum.negInf ∨
      ∃ q, amount = JNum.val q ∧ q ≤ 0) :
    simulateDivestment s amount u t = Except.error DivestError.InvalidAmount := by
  unfold simulateDivestment
  rcases h with rfl | rfl | ⟨q, rfl, hq⟩
  · simp [JNum.isNaN]
  · simp [JNum.isNaN, JNum.jle]
  · simp [JNum.isNaN, JNum.jle, hq]

/-- C3 witness: amount 0 on the documented starting snapshot is rejected
as `InvalidAmount`. -/
theorem invalid_amount_fails_first_witness :
    (JNum.val 0 = JNum.nan ∨ JNum.val 0 = JNum.negInf ∨
      ∃ q, JNum.val (0 : ℚ) = JNum.val q ∧ q ≤ 0) ∧
    simulateDivestment initialSnapshot (JNum.val 0) "analyst" "t0" =
      Except.error DivestError.InvalidAmount :=
  ⟨Or.inr (Or.inr ⟨0, rfl, le_refl 0⟩),
   invalid_amount_fails_first initialSnapshot (JNum.val 0) "analyst" "t0"
     (Or.inr (Or.inr ⟨0, rfl, le_refl 0⟩))⟩

/-- C3 counterexample: the non-finite amount `+∞` is strictly positive in
JS comparison, so it passes the first validation and fails with
`AmountExceedsExposure`, not `InvalidAmount`, on the documented starting
snapshot. -/
theorem nonfinite_amount_not_invalid :
    simulateDivestment initialSnapshot JNum.posInf "analyst" "t0" =
      Except.error (DivestError.AmountExceedsExposure 52052.43) ∧
    simulateDivestment initialSnapshot JNum.posInf "analyst" "t0" ≠
      Except.error DivestError.InvalidAmount := by
  have h : simulateDivestment initialSnapshot JNum.posInf "analyst" "t0" =
      Except.error (DivestError.AmountExceedsExposure 52052.43) := by
    unfold simulateDivestment
    rw [currentTierD_initial]
    simp [JNum.isNaN, JNum.jle, JNum.jgt]
  exact ⟨h, by rw [h]; simp⟩

/-- C4 (amended): after a successful divestment each bucket's percentage
is its exposure divided by the recomputed total times 100, and — provided
the recomputed total is positive — the four percentages sum to exactly
100.  (When the divestment drains the last non-zero exposure the
recomputed total is 0 and the percentage sum is not 100; see the
counterexample.) -/
theorem percentages_recomputed_and_sum_100 (s : PortfolioSnapshot) (a b c d : RiskBucket)
    (q : ℚ) (u t : String) (hs : s.riskData = [a, b, c, d]) (ht : BucketTiers a b c d)
    (h0 : 0 < q) (hle : q ≤ d.exposure) (hpos : 0 < divTotal a b c d q) :
    ∃ s₂, simulateDivestment s (JNum.val q) u t = Except.ok s₂ ∧
      s₂.riskData.map RiskBucket.percentage =
        [a.exposure / divTotal a b c d q * 100,
         b.exposure / divTotal a b c d q * 100,
         c.exposure / divTotal a b c d q * 100,
         (d.exposure - q) / divTotal a b c d q * 100] ∧
      (s₂.riskData.map RiskBucket.percentage).sum = 100 := by
  refine ⟨_, simulateDivestment_ok s a b c d q u t hs ht h0 hle, by simp, ?_⟩
  have hT : divTotal a b c d q ≠ 0 := ne_of_gt hpos
  simp only [List.map, List.sum_cons, List.sum_nil]
  field_simp
  simp only [divTotal]
  ring

/-- C4 witness: divesting 20000 from the documented starting snapshot. -/
theorem percentages_recomputed_and_sum_100_witness :
    (0 : ℚ) < 20000 ∧ (20000 : ℚ) ≤ mockTierD.exposure ∧
    0 < divTotal mockTierA mockTierB mockTierC mockTierD 20000 ∧
    ∃ s₂, simulateDivestment initialSnapshot (JNum.val 20000) "analyst" "t0" = Except.ok s₂ ∧
      s₂.riskData.map RiskBucket.percentage =
        [mockTierA.exposure / divTotal mockTierA mockTierB mockTierC mockTierD 20000 * 100,
         mockTierB.exposure / divTotal mockTierA mockTierB mockTierC mockTierD 20000 * 100,
         mockTierC.exposure / divTotal mockTierA mockTierB mockTierC mockTierD 20000 * 100,
         (mockTierD.exposure - 20000) / divTotal mockTierA mockTierB mockTierC mockTierD 20000 * 100] ∧
      (s₂.riskData.map RiskBucket.percentage).sum = 100 :=
  ⟨by norm_num, by norm_num [mockTierD],
   by norm_num [divTotal, mockTierA, mockTierB, mockTierC, mockTierD],
   percentages_recomputed_and_sum_100 initialSnapshot mockTierA mockTierB mockTierC mockTierD
     20000 "analyst" "t0" rfl mockTiers (by norm_num) (by norm_num [mockTierD])
     (by norm_num [divTotal, mockTierA, mockTierB, mockTierC, mockTierD])⟩

/-! ### A snapshot whose only exposure sits in Tier D -/

/-- Tier A row with zero exposure. -/
def drainedA : RiskBucket :=
  { tier := "A: Leader (Low Risk)", exposure := 0, percentage := 0, color := "#10B981", count := 0 }

/-- Tier B row with zero exposure. -/
def drainedB : RiskBucket :=
  { tier := "B: Aligned (Moderate Risk)", exposure := 0, percentage := 0, color := "#3B82F6", count := 0 }

/-- Tier C row with zero exposure. -/
def drainedC : RiskBucket :=
  { tier := "C: Watchlist (High Risk)", exposure := 0, percentage := 0, color := "#F59E0B", count := 0 }

/-- Tier D row holding the whole remaining exposure. -/
def drainedD : RiskBucket :=
  { tier := "D: Divestment (Very High Risk)", exposure := 1, percentage := 100, color := "#EF4444", count := 1 }

/-- A well-formed snapshot whose entire exposure sits in Tier D. -/
def drainedSnapshot : PortfolioSnapshot :=
  { totalExposure := 1,
    initialTierDTarget := 1,
    lastUpdated := "2024-01-01T00:00:00.000Z",
    riskData := [drainedA, drainedB, drainedC, drainedD],
    lastAction := none }

/-- C4 counterexample: divesting the full Tier-D exposure of a snapshot
whose other tiers hold zero exposure succeeds, but the recomputed total is
0, so the resulting percentages sum to 0 (in JS, `0/0` makes them NaN)
rather than 100. -/
theorem percentages_sum_breaks_on_full_drain :
    (simulateDivestment drainedSnapshot (JNum.val 1) "analyst" "t0").map
        (fun s₂ => (s₂.riskData.map RiskBucket.percentage).sum) = Except.ok 0 ∧
    (0 : ℚ) ≠ 100 := by
  have hwf : BucketTiers drainedA drainedB drainedC drainedD :=
    ⟨by decide, by decide, by decide, by decide, by decide, by decide, by decide⟩
  have h := simulateDivestment_ok drainedSnapshot drainedA drainedB drainedC drainedD
    1 "analyst" "t0" rfl hwf (by norm_num) (by norm_num [drainedD])
  rw [h]
  refine ⟨?_, by norm_num⟩
  simp only [Except.map, List.map, List.sum_cons, List.sum_nil]
  norm_num [divTotal, drainedA, drainedB, drainedC, drainedD]

/-- C5 (amended): a successful divestment computes a new total — the sum
of the four post-divestment exposures, i.e. the old exposure sum minus the
amount — and uses it as the denominator of every recomputed percentage,
but the snapshot's stored `totalExposure` field is carried over unchanged
from the input document (the `...dbData` spread); it does not reflect the
post-divestment sum. -/
theorem stored_total_not_recomputed (s : PortfolioSnapshot) (a b c d : RiskBucket)
    (q : ℚ) (u t : String) (hs : s.riskData = [a, b, c, d]) (ht : BucketTiers a b c d)
    (h0 : 0 < q) (hle : q ≤ d.exposure) :
    ∃ s₂, simulateDivestment s (JNum.val q) u t = Except.ok s₂ ∧
      s₂.totalExposure = s.totalExposure ∧
      (s₂.riskData.map RiskBucket.exposure).sum =
        (s.riskData.map RiskBucket.exposure).sum - q ∧
      s₂.riskData.map RiskBucket.percentage =
        s₂.riskData.map (fun r => r.exposure / divTotal a b c d q * 100) := by
  refine ⟨_, simulateDivestment_ok s a b c d q u t hs ht h0 hle, rfl, ?_, by simp⟩
  simp only [hs, List.map, List.sum_cons, List.sum_nil]
  ring

/-- C5 witness: divesting 20000 from the documented starting snapshot. -/
theorem stored_total_not_recomputed_witness :
    (0 : ℚ) < 20000 ∧ (20000 : ℚ) ≤ mockTierD.exposure ∧
    ∃ s₂, simulateDivestment initialSnapshot (JNum.val 20000) "analyst" "t0" = Except.ok s₂ ∧
      s₂.totalExposure = initialSnapshot.totalExposure ∧
      (s₂.riskData.map RiskBucket.exposure).sum =
        (initialSnapshot.riskData.map RiskBucket.exposure).sum - 20000 ∧
      s₂.riskData.map RiskBucket.percentage =
        s₂.riskData.map (fun r => r.exposure / divTotal mockTierA mockTierB mockTierC mockTierD 20000 * 100) :=
  ⟨by norm_num, by norm_num [mockTierD],
   stored_total_not_recomputed initialSnapshot mockTierA mockTierB mockTierC mockTierD
     20000 "analyst" "t0" rfl mockTiers (by norm_num) (by norm_num [mockTierD])⟩

/-- C5 counterexample: divesting 20000 from the documented starting
snapshot leaves the stored `totalExposure` at the original 278157.81,
while the post-divestment exposure sum is 258157.81 — the field does not
reflect the post-divestment sum. -/
theorem stored_total_stale_cx :
    (simulateDivestment initialSnapshot (JNum.val 20000) "analyst" "t0").map
        PortfolioSnapshot.totalExposure = Except.ok 278157.81 ∧
    (simulateDivestment initialSnapshot (JNum.val 20000) "analyst" "t0").map
        (fun s₂ => (s₂.riskData.map RiskBucket.exposure).sum) = Except.ok 258157.81 ∧
    (278157.81 : ℚ) ≠ 258157.81 := by
  have h := simulateDivestment_ok initialSnapshot mockTierA mockTierB mockTierC mockTierD
    20000 "analyst" "t0" rfl mockTiers (by norm_num) (by norm_num [mockTierD])
  rw [h]
  refine ⟨?_, ?_, by norm_num⟩
  · simp only [Except.map]
    norm_num [initialSnapshot, TOTAL_EXPOSURE]
  · simp only [Except.map, List.map, List.sum_cons, List.sum_nil]
    norm_num [mockTierA, mockTierB, mockTierC, mockTierD]

/-- The derived-metrics projection on a well-formed snapshot, written out
field by field exactly as the source computes it (the `min 100` cap is
applied to the result of the target-positive conditional). -/
lemma calculatedMetrics_eq (s : PortfolioSnapshot) (a b c d : RiskBucket)
    (hs : s.riskData = [a, b, c, d]) (ht : BucketTiers a b c d) :
    calculatedMetrics s =
      { currentTierDExposure := d.exposure,
        progressMade := max 0 (s.initialTierDTarget - d.exposure),
        progressPercentage := min 100 (if 0 < s.initialTierDTarget then
          max 0 (s.initialTierDTarget - d.exposure) / s.initialTierDTarget * 100 else 0),
        highRiskExposure := d.exposure + c.exposure,
        totalLoanCount := a.count + b.count + c.count + d.count } := by
  have hD : currentTierDExposure s = d.exposure := currentTierDExposure_of_wf s a b c d hs ht
  have hC : (s.riskData.find? fun r => jsStartsWith r.tier "C") = some c := by
    simp [hs, List.find?, ht.aC, ht.bC, ht.cC]
  unfold calculatedMetrics
  rw [hD, hC]
  simp only [hs, List.foldl, Option.map_some, Option.getD_some, gt_iff_lt]
  congr 1
  omega

/-- C6: on a well-formed snapshot the derived metrics are
`progressMade = max 0 (target − tierD)`,
`progressPercentage = if target > 0 then min 100 (progressMade / target * 100) else 0`,
`highRiskExposure = tierD + tierC`, and `totalLoanCount` the sum of the
four counts. -/
theorem calculatedMetrics_formulas (s : PortfolioSnapshot) (a b c d : RiskBucket)
    (hs : s.riskData = [a, b, c, d]) (ht : BucketTiers a b c d) :
    (calculatedMetrics s).currentTierDExposure = d.exposure ∧
    (calculatedMetrics s).progressMade = max 0 (s.initialTierDTarget - d.exposure) ∧
    (calculatedMetrics s).progressPercentage =
      (if 0 < s.initialTierDTarget then
         min 100 (max 0 (s.initialTierDTarget - d.exposure) / s.initialTierDTarget * 100)
       else 0) ∧
    (calculatedMetrics s).highRiskExposure = d.exposure + c.exposure ∧
    (calculatedMetrics s).totalLoanCount = a.count + b.count + c.count + d.count := by
  rw [calculatedMetrics_eq s a b c d hs ht]
  refine ⟨rfl, rfl, ?_, rfl, rfl⟩
  by_cases hT : 0 < s.initialTierDTarget
  · simp [hT]
  · simp [hT]

/-- C6 witness: the metrics of the documented starting snapshot. -/
theorem calculatedMetrics_formulas_witness :
    initialSnapshot.riskData = [mockTierA, mockTierB, mockTierC, mockTierD] ∧
    (calculatedMetrics initialSnapshot).currentTierDExposure = mockTierD.exposure ∧
    (calculatedMetrics initialSnapshot).progressMade =
      max 0 (initialSnapshot.initialTierDTarget - mockTierD.exposure) ∧
    (calculatedMetrics initialSnapshot).progressPercentage =
      (if 0 < initialSnapshot.initialTierDTarget then
         min 100 (max 0 (initialSnapshot.initialTierDTarget - mockTierD.exposure) /
           initialSnapshot.initialTierDTarget * 100)
       else 0) ∧
    (calculatedMetrics initialSnapshot).highRiskExposure =
      mockTierD.exposure + mockTierC.exposure ∧
    (calculatedMetrics initialSnapshot).totalLoanCount =
      mockTierA.count + mockTierB.count + mockTierC.count + mockTierD.count :=
  ⟨rfl, calculatedMetrics_formulas initialSnapshot mockTierA mockTierB mockTierC mockTierD
    rfl mockTiers⟩

/-- C7: on the documented starting snapshot, divesting 20000 leaves
Tier-D exposure 32052.43 and a progress percentage within 0.01 of 38.43
(the exact value is 200000000/5205243 ≈ 38.4228); divesting the full
52052.43 leaves Tier-D exposure 0 and progress percentage exactly 100. -/
theorem documented_divestment_examples :
    (simulateDivestment initialSnapshot (JNum.val 20000) "analyst" "t0").map
        (fun s₂ => ((calculatedMetrics s₂).currentTierDExposure,
          (calculatedMetrics s₂).progressPercentage)) =
      Except.ok (32052.43, 200000000/5205243) ∧
    |(200000000/5205243 : ℚ) - 38.43| < 1/100 ∧
    (simulateDivestment initialSnapshot (JNum.val 52052.43) "analyst" "t0").map
        (fun s₂ => ((calculatedMetrics s₂).currentTierDExposure,
          (calculatedMetrics s₂).progressPercentage)) =
      Except.ok (0, 100) := by
  have h1 := simulateDivestment_ok initialSnapshot mockTierA mockTierB mockTierC mockTierD
    20000 "analyst" "t0" rfl mockTiers (by norm_num) (by norm_num [mockTierD])
  have h2 := simulateDivestment_ok initialSnapshot mockTierA mockTierB mockTierC mockTierD
    52052.43 "analyst" "t0" rfl mockTiers (by norm_num) (by norm_num [mockTierD])
  refine ⟨?_, ?_, ?_⟩
  · rw [h1]
    simp only [Except.map, Except.ok.injEq, Prod.mk.injEq]
    unfold calculatedMetrics currentTierDExposure
    simp only [List.find?, mockTiers.aD, mockTiers.bD, mockTiers.cD, mockTiers.dD,
      mockTiers.aC, mockTiers.bC, mockTiers.cC]
    norm_num [initialSnapshot, TIER_D_TARGET_EXPOSURE, mockTierD, min_def, max_def]
  · rw [abs_sub_lt_iff]
    constructor <;> norm_num
  · rw [h2]
    simp only [Except.map, Except.ok.injEq, Prod.mk.injEq]
    unfold calculatedMetrics currentTierDExposure
    simp only [List.find?, mockTiers.aD, mockTiers.bD, mockTiers.cD, mockTiers.dD,
      mockTiers.aC, mockTiers.bC, mockTiers.cC]
    norm_num [initialSnapshot, TIER_D_TARGET_EXPOSURE, mockTierD, min_def, max_def]

/-- C8: the divestment computation is a pure function of the snapshot, the
amount, the actor and the injected clock value: two calls agreeing on all
four inputs produce the same result. -/
theorem simulateDivestment_deterministic (s₁ s₂ : PortfolioSnapshot) (amount₁ amount₂ : JNum)
    (u₁ u₂ t₁ t₂ : String) (hs : s₁ = s₂) (ha : amount₁ = amount₂) (hu : u₁ = u₂)
    (ht : t₁ = t₂) :
    simulateDivestment s₁ amount₁ u₁ t₁ = simulateDivestment s₂ amount₂ u₂ t₂ := by
  rw [hs, ha, hu, ht]

/-- C8 witness: two identical calls on the documented starting snapshot. -/
theorem simulateDivestment_deterministic_witness :
    simulateDivestment initialSnapshot (JNum.val 20000) "analyst" "t0" =
      simulateDivestment initialSnapshot (JNum.val 20000) "analyst" "t0" :=
  simulateDivestment_deterministic initialSnapshot initialSnapshot
    (JNum.val 20000) (JNum.val 20000) "analyst" "analyst" "t0" "t0" rfl rfl rfl rfl

/-- Modelled from the spec: the bucket-update map with the dead Tier-C
"bonus" branch removed, so that only the Tier-D bucket is modified.  This
is the comparator for the refinement claim C9. -/
def updateBucketTierDOnly (newTierDExposure newTierDPercentage : ℚ) (d : RiskBucket) : RiskBucket :=
  if jsStartsWith d.tier "D" then
    { d with exposure := newTierDExposure, percentage := newTierDPercentage }
  else d

/-- C9: the conditional Tier-C "bonus" branch (taken when the new Tier-D
exposure is `≤ 0`) spreads the bucket into an identical object, changing
no field, so the bucket-update map is extensionally equal to the map that
modifies only the Tier-D bucket. -/
theorem bonus_branch_is_noop (e p : ℚ) (b : RiskBucket) :
    updateBucket e p b = updateBucketTierDOnly e p b := by
  unfold updateBucket updateBucketTierDOnly
  rcases h : jsStartsWith b.tier "D" with _ | _
  · simp only [Bool.false_eq_true, if_false]
    split <;> rfl
  · simp

/-- C10: when no bucket's tier starts with "D", the current Tier-D
exposure is taken to be 0, so any positive finite amount fails with
`AmountExceedsExposure` carrying the ceiling 0, and the error is an early
return: no document write occurs. -/
theorem missing_tierD_fails (s : PortfolioSnapshot) (q : ℚ) (u t : String)
    (hnoD : ∀ b ∈ s.riskData, jsStartsWith b.tier "D" = false) (h0 : 0 < q) :
    simulateDivestment s (JNum.val q) u t =
      Except.error (DivestError.AmountExceedsExposure 0) := by
  have hfind : (s.riskData.find? fun d => jsStartsWith d.tier "D") = none := by
    rw [List.find?_eq_none]
    intro x hx
    simp [hnoD x hx]
  have hD : currentTierDExposure s = 0 := by
    simp [currentTierDExposure, hfind]
  unfold simulateDivestment
  rw [hD]
  simp [JNum.isNaN, JNum.jle, JNum.jgt, not_le.mpr h0, h0]

/-- A snapshot whose `riskData` holds no Tier-D bucket. -/
def noTierDSnapshot : PortfolioSnapshot :=
  { totalExposure := 9933.22,
    initialTierDTarget := 0,
    lastUpdated := "2024-01-01T00:00:00.000Z",
    riskData := [mockTierA],
    lastAction := none }

/-- C10 witness: a positive amount against a snapshot with no Tier-D
bucket is rejected citing the ceiling 0. -/
theorem missing_tierD_fails_witness :
    (∀ b ∈ noTierDSnapshot.riskData, jsStartsWith b.tier "D" = false) ∧ (0 : ℚ) < 1 ∧
    simulateDivestment noTierDSnapshot (JNum.val 1) "analyst" "t0" =
      Except.error (DivestError.AmountExceedsExposure 0) :=
  ⟨by intro b hb; simp only [noTierDSnapshot, List.mem_singleton] at hb; rw [hb]; decide,
   by norm_num,
   missing_tierD_fails noTierDSnapshot 1 "analyst" "t0"
     (by intro b hb; simp only [noTierDSnapshot, List.mem_singleton] at hb; rw [hb]; decide)
     (by norm_num)⟩

end GreenFin
